import Mathlib

/-!
Shallow embedding of the sqs-sdk library (queue-service.js: `QueueService`
and `StorageService`; provider: `Provider`) and proofs of its specified
properties.

Modelling conventions:
- A JavaScript value that may be `null`/`undefined` is an `Option`.
- A string is truthy iff it is non-empty; `null`/`undefined` are falsy.
- An asynchronous callback-based transport call `(params, cb(err, data))`
  is a function from the request parameters to an `Except`/`Option` result;
  the promise wrappers turn that into `Except` values.
- Promise rejection values in this code are either plain strings or a
  `TypeError` raised by a property access on `null`; `RejectValue` covers
  both shapes.
-/

deriving instance DecidableEq for Except

namespace SqsSdk

/-- An SQS response / message value as this library inspects it: it may carry
a `Messages` array (absent when the long poll returned nothing) and a
`ReceiptHandle` (present on individual received messages). -/
structure SqsData where
  Messages : Option (List String) := none
  ReceiptHandle : Option String := none
deriving DecidableEq, Repr

/-- A promise rejection value: either a plain string (all explicit `reject`
calls in this code pass strings) or a `TypeError` thrown by a property
access on `null`/`undefined`. -/
inductive RejectValue where
  | str (s : String)
  | typeError (msg : String)
deriving DecidableEq, Repr

/-- A value produced by a JavaScript bracket lookup on the
`ENVIRONMENT_MAP` object literal: an own string property, a native
function inherited from `Object.prototype` (carrying the function's own
name, e.g. the `constructor` property holds the function `Object`), or
`Object.prototype` itself (reached through the inherited `__proto__`
accessor). -/
inductive JsPropValue where
  | str (s : String)
  | nativeFn (name : String)
  | protoObj
deriving DecidableEq, Repr

/-- JavaScript truthiness of a looked-up property value: functions and
objects are always truthy; a string is truthy iff non-empty. -/
def JsPropValue.truthy : JsPropValue → Bool
  | .str s => decide (s ≠ "")
  | .nativeFn _ => true
  | .protoObj => true

/-- Template-literal stringification of a looked-up property value (as in
the Node/V8 runtime this library targets): strings interpolate as
themselves, a native function as its source text, and `Object.prototype`
as `[object Object]`. -/
def JsPropValue.display : JsPropValue → String
  | .str s => s
  | .nativeFn name => "function " ++ name ++ "() \x7b [native code] \x7d"
  | .protoObj => "[object Object]"

/-- The property names an object literal inherits from `Object.prototype`,
so that `ENVIRONMENT_MAP[name]` is defined (and truthy) for them even
though they are not own keys of the literal. -/
def objectPrototypeMemberNames : List String :=
  ["constructor", "__proto__", "hasOwnProperty", "isPrototypeOf",
   "propertyIsEnumerable", "toLocaleString", "toString", "valueOf",
   "__defineGetter__", "__defineSetter__", "__lookupGetter__", "__lookupSetter__"]

/-- `ENVIRONMENT_MAP[env]` from queue-service.js: the object literal holds
the two pre-configured AWS account numbers under its own keys `kaos` and
`prod`, but a bracket lookup also consults the prototype chain, so the
names of `Object.prototype` members yield the inherited member instead of
`undefined` (`constructor` yields the function `Object`, `__proto__`
yields `Object.prototype`, the rest yield the same-named native
function). Every other key yields `undefined` (`none`). -/
def ENVIRONMENT_MAP (env : String) : Option JsPropValue :=
  if env = "kaos" then some (.str "384553929753")
  else if env = "prod" then some (.str "966972755541")
  else if env = "constructor" then some (.nativeFn "Object")
  else if env = "__proto__" then some .protoObj
  else if env ∈ objectPrototypeMemberNames then some (.nativeFn env)
  else none

/-- JavaScript truthiness of a possibly-missing string parameter:
`null`/`undefined` and the empty string are falsy. -/
def truthyStr : Option String → Bool
  | none => false
  | some s => decide (s ≠ "")

/-- The state a successfully constructed `QueueService` carries: the bound
queue URL (the model elides the AWS client object, which only stores the
URL as its default `QueueUrl` parameter). -/
structure QueueService where
  url : String
deriving DecidableEq, Repr

/-- `QueueService` constructor: validates the four mandatory parameters,
builds `appName-slice-queueName`, looks up `ENVIRONMENT_MAP[environment]`
(falling back to the `kaos` account when the looked-up value is falsy —
`undefined` or, hypothetically, an empty string), and binds the queue URL
with the selected value interpolated by the template literal. Throwing is
modelled as `Except.error` carrying the `Error` message. -/
def QueueService.make (appName slice environment queueName : Option String) :
    Except String QueueService :=
  if truthyStr appName && truthyStr slice && truthyStr environment && truthyStr queueName then
    let a := appName.getD ""
    let s := slice.getD ""
    let e := environment.getD ""
    let q := queueName.getD ""
    let uri := a ++ "-" ++ s ++ "-" ++ q
    let account : JsPropValue := match ENVIRONMENT_MAP e with
      | some v => if v.truthy then v else .str "384553929753"
      | none => .str "384553929753"
    .ok { url := "https://sqs.ap-southeast-2.amazonaws.com/" ++ account.display ++ "/" ++ uri }
  else
    .error "All parameters are mandatory, please provide an appName, slice, environment and queueName"

/-- The request parameters `receiveMessage` passes to `sqs.receiveMessage`. -/
structure ReceiveParams where
  MaxNumberOfMessages : Nat
  AttributeNames : List String
  WaitTimeSeconds : Nat
deriving DecidableEq, Repr

/-- The parameter object built by `receiveMessage` for a given
`maxNumberOfMessages`. -/
def receiveParamsOf (maxNumberOfMessages : Nat) : ReceiveParams :=
  { MaxNumberOfMessages := maxNumberOfMessages
    AttributeNames := ["All"]
    WaitTimeSeconds := 10 }

/-- `receiveMessage(maxNumberOfMessages = 1)`: calls the SQS transport with
the built parameters; a transport error rejects with the error stringified
behind the fixed prefix, otherwise the raw response resolves. Returns the
promise outcome together with the parameters that were sent. -/
def receiveMessage (recvT : ReceiveParams → Except String SqsData)
    (maxNumberOfMessages : Nat := 1) : Except String SqsData × ReceiveParams :=
  let params := receiveParamsOf maxNumberOfMessages
  match recvT params with
  | .error err => (.error ("An error occurred: " ++ err), params)
  | .ok data => (.ok data, params)

/-- `deleteMessage(message)`: the input may be `null`/`undefined` (`none`),
in which case reading `message.ReceiptHandle` throws a `TypeError` inside
the promise executor, rejecting the promise; a falsy `ReceiptHandle`
rejects with the local validation string; otherwise the transport delete is
invoked. The second component records whether `sqs.deleteMessage` was
invoked. -/
def deleteMessage (message : Option SqsData) (delT : Except String SqsData) :
    Except RejectValue SqsData × Bool :=
  match message with
  | none =>
    (.error (.typeError "Cannot read properties of null (reading ReceiptHandle)"), false)
  | some m =>
    if truthyStr m.ReceiptHandle then
      match delT with
      | .error err => (.error (.str ("An error occurred: " ++ err)), true)
      | .ok data => (.ok data, true)
    else
      (.error (.str "message input did not contain a receipt handle"), false)

/-- What `dequeue` did to its collaborators: the parameters of the receive
call, the argument passed to `deleteMessage` (`none` when delete was never
reached), and whether the delete transport was invoked. -/
structure DequeueTrace where
  receiveParams : ReceiveParams
  deleteArg : Option (Option SqsData)
  deleteTransportCalled : Bool
deriving DecidableEq, Repr

/-- `dequeue()`: awaits `receiveMessage()` (default max of 1), passes the
resolved value unchanged to `deleteMessage`, and on success resolves with
the received value (not the delete acknowledgment). -/
def dequeue (recvT : ReceiveParams → Except String SqsData)
    (delT : Except String SqsData) : Except RejectValue SqsData × DequeueTrace :=
  let (r, params) := receiveMessage recvT
  match r with
  | .error e =>
    (.error (.str e), { receiveParams := params, deleteArg := none, deleteTransportCalled := false })
  | .ok data =>
    let (d, called) := deleteMessage (some data) delT
    match d with
    | .error e =>
      (.error e, { receiveParams := params, deleteArg := some (some data), deleteTransportCalled := called })
    | .ok _ =>
      (.ok data, { receiveParams := params, deleteArg := some (some data), deleteTransportCalled := called })

/-- An event emitted by the polling loop's `EventEmitter`. -/
inductive PollEvent where
  | message (r : SqsData)
  | error (e : String)
deriving DecidableEq, Repr

/-- One tick of the `startPolling` interval callback: `receiveMessage(10)`,
then `emit('message', messages)` when `messages.Messages` is truthy (in
JavaScript any array — even an empty one — is truthy; only an absent field
is falsy), and `emit('error', err)` when the receive promise rejected.
Returns the list of events emitted during the tick. -/
def pollTick (recvT : ReceiveParams → Except String SqsData) : List PollEvent :=
  match (receiveMessage recvT 10).1 with
  | .error e => [.error e]
  | .ok messages =>
    match messages.Messages with
    | some _ => [.message messages]
    | none => []

/-- The millisecond period `startPolling(intervalSeconds)` installs:
`Math.max(intervalSeconds, 20) * 1000`. -/
def startPollingIntervalMs (intervalSeconds : Int) : Int :=
  max intervalSeconds 20 * 1000

/-- A JavaScript error value as `getUniqueKey` inspects it: only its `code`
property matters (absent on non-AWS error values). -/
structure JsErr where
  code : Option String := none
deriving DecidableEq, Repr

/-- `StorageService.getUniqueKey(prefix)` (storage-service.js): each attempt
draws a fresh `uuid.v1()` suffix, probes `headObject` on
`prefix + suffix`, resolves the key when the probe errors with code
`NotFound`, rejects with the probe error unchanged on any other error, and
recurses on probe success (key already exists). The environment is the
stream of `(suffix, probe result)` pairs, one per attempt; `probe = none`
means `headObject` succeeded. Returns the settled outcome (`none` when the
stream was exhausted before settling) and the number of probes performed. -/
def getUniqueKey (pre : String) :
    List (String × Option JsErr) → Option (Except JsErr String) × Nat
  | [] => (none, 0)
  | (suffix, probe) :: rest =>
    let key := pre ++ suffix
    match probe with
    | some e =>
      if e.code = some "NotFound" then (some (.ok key), 1)
      else (some (.error e), 1)
    | none =>
      let (r, n) := getUniqueKey pre rest
      (r, n + 1)

/-- The parameter object `putAttachment` hands to `putObject`. -/
structure PutData where
  Key : String
  Body : String
deriving DecidableEq, Repr

/-- `putObjectPromise(data)`: invokes the S3 put transport; rejects with the
transport error unchanged, resolves with `data.Key`. -/
def putObjectPromise (putT : PutData → Option JsErr) (data : PutData) :
    Except JsErr String :=
  match putT data with
  | some err => .error err
  | none => .ok data.Key

/-- `putAttachment(prefix, attachments)`: awaits `getUniqueKey(prefix)`,
serializes the attachments (`JSON.stringify` is modelled by the
caller-supplied `stringify`), writes under the obtained key via
`putObjectPromise`, and re-throws any failure unchanged (the `catch` block
only logs). `none` when the probe stream was exhausted. -/
def putAttachment {α : Type} (stringify : α → String)
    (stream : List (String × Option JsErr)) (putT : PutData → Option JsErr)
    (pre : String) (attachments : α) : Option (Except JsErr String) :=
  match (getUniqueKey pre stream).1 with
  | none => none
  | some (.error e) => some (.error e)
  | some (.ok key) =>
    some (putObjectPromise putT { Key := key, Body := stringify attachments })

/-- The state a constructed `StorageService` carries: the bucket bound as
the default `Bucket` parameter. Construction never fails. -/
structure StorageService where
  bucketName : Option String
deriving DecidableEq, Repr

/-- A successfully constructed `Provider`. -/
structure Provider where
  storageService : StorageService
  queueService : QueueService
deriving DecidableEq, Repr

/-- A value thrown during `Provider` construction: either a
`ReferenceError` (an unbound identifier was evaluated) or an ordinary
`Error` (as the queue client's validation would throw). -/
inductive JsThrow where
  | referenceError (msg : String)
  | error (msg : String)
deriving DecidableEq, Repr

/-- `Provider` constructor (provider source): constructs a `StorageService`
from the bucket name, then evaluates `new QueueService()` — but the
provider module imports only `StorageService`, so the identifier
`QueueService` is unbound and its evaluation throws a `ReferenceError`
before any constructor (and hence any parameter validation) runs. -/
def Provider.make (bucketName : Option String) : Except JsThrow Provider :=
  let _storageService : StorageService := { bucketName := bucketName }
  .error (.referenceError "QueueService is not defined")

/-- C1: given existence-probe results `[found, found, notFound]`,
`getUniqueKey(prefix)` performs exactly 3 probes and returns the prefix
concatenated with the 3rd generated suffix; given a first-probe error other
than `NotFound`, it fails immediately with that exact error value after
exactly 1 probe. -/
theorem getUniqueKey_probe_behaviour
    (pre s1 s2 s3 : String) (rest : List (String × Option JsErr)) (e : JsErr)
    (he : e.code ≠ some "NotFound") :
    getUniqueKey pre
        ((s1, none) :: (s2, none) :: (s3, some { code := some "NotFound" }) :: rest)
      = (some (.ok (pre ++ s3)), 3)
    ∧ getUniqueKey pre ((s1, some e) :: rest) = (some (.error e), 1) := by
  constructor
  · simp [getUniqueKey]
  · simp [getUniqueKey, he]

/-- Witness for C1 at concrete inputs: suffixes `a`, `b`, `c` with probes
`[found, found, notFound]` give key `pc` in 3 probes, and a first-probe
`AccessDenied` error is surfaced unchanged after 1 probe. -/
theorem getUniqueKey_probe_behaviour_witness :
    getUniqueKey "p"
        [("a", none), ("b", none), ("c", some { code := some "NotFound" })]
      = (some (.ok ("p" ++ "c")), 3)
    ∧ getUniqueKey "p" [("a", some { code := some "AccessDenied" })]
      = (some (.error { code := some "AccessDenied" }), 1) :=
  getUniqueKey_probe_behaviour "p" "a" "b" "c" [] { code := some "AccessDenied" } (by decide)

/-- C2 counterexample: a response whose `Messages` field is present but an
empty array is truthy in JavaScript, so the tick emits a `message` event —
the claim says an empty messages field emits no event. -/
theorem pollTick_empty_array_emits :
    pollTick (fun _ => .ok { Messages := some [], ReceiptHandle := none }) ≠ [] := by
  decide

/-- C2 amended: on a poll tick, if the receive transport resolves with a
response whose `Messages` field is present (even as an empty array),
exactly one `message` event fires carrying the full response; if the field
is absent, no event fires; if the receive call fails, exactly one `error`
event fires carrying the receive promise's rejection value. The tick is a
total function, so no exception escapes the timer callback. -/
theorem pollTick_events (recvT : ReceiveParams → Except String SqsData) :
    (∀ resp, recvT (receiveParamsOf 10) = .ok resp →
      (resp.Messages.isSome → pollTick recvT = [.message resp])
      ∧ (resp.Messages = none → pollTick recvT = []))
    ∧ (∀ e, recvT (receiveParamsOf 10) = .error e →
      pollTick recvT = [.error ("An error occurred: " ++ e)]) := by
  refine ⟨fun resp hr => ⟨fun hm => ?_, fun hn => ?_⟩, fun e he => ?_⟩
  · obtain ⟨l, hl⟩ := Option.isSome_iff_exists.mp hm
    simp [pollTick, receiveMessage, hr, hl]
  · simp [pollTick, receiveMessage, hr, hn]
  · simp [pollTick, receiveMessage, he]

/-- Witness for C2's amended theorem: a transport resolving with one message
makes the tick emit exactly one `message` event with the full response. -/
theorem pollTick_events_witness :
    pollTick (fun _ => .ok { Messages := some ["m1"], ReceiptHandle := none })
      = [.message { Messages := some ["m1"], ReceiptHandle := none }] :=
  ((pollTick_events (fun _ => .ok { Messages := some ["m1"], ReceiptHandle := none })).1
    { Messages := some ["m1"], ReceiptHandle := none } rfl).1 (by decide)

/-- C3 counterexample: for the non-empty environment `toString`, the
bracket lookup `ENVIRONMENT_MAP[environment]` returns the truthy inherited
native function `Object.prototype.toString`, the `!account` fallback never
fires, and the URL embeds that function's stringification — so the claim's
"every other value, including unrecognized ones, maps to the staging
(kaos) account id" fails: the endpoint is not the kaos-account URL. -/
theorem queueService_url_inherited_member :
    QueueService.make (some "appName") (some "slice") (some "toString") (some "name")
      ≠ .ok { url := "https://sqs.ap-southeast-2.amazonaws.com/384553929753/appName-slice-name" } := by
  decide

/-- C3 amended: for all non-empty identifiers whose environment is not the
name of an `Object.prototype` member, the bound queue endpoint is the
fixed regional host, `/`, the account selected by the environment (`prod`
maps to the production account, every other such value to the `kaos`
account), `/`, and `appName-slice-queueName`. (For environments naming an
inherited `Object.prototype` member — `toString`, `constructor`,
`__proto__`, ... — the lookup yields a truthy inherited value, the kaos
fallback is bypassed, and the URL embeds that value's stringification
instead of an account id.) -/
theorem queueService_url (a s e q : String)
    (ha : a ≠ "") (hs : s ≠ "") (he : e ≠ "") (hq : q ≠ "")
    (hproto : e ∉ objectPrototypeMemberNames) :
    QueueService.make (some a) (some s) (some e) (some q)
      = .ok { url := "https://sqs.ap-southeast-2.amazonaws.com/"
          ++ (if e = "prod" then "966972755541" else "384553929753")
          ++ "/" ++ (a ++ "-" ++ s ++ "-" ++ q) } := by
  have hc : e ≠ "constructor" := fun h => hproto (by rw [h]; decide)
  have hpr : e ≠ "__proto__" := fun h => hproto (by rw [h]; decide)
  by_cases hk : e = "kaos"
  · subst hk
    simp [QueueService.make, truthyStr, ha, hs, hq, ENVIRONMENT_MAP,
      JsPropValue.truthy, JsPropValue.display]
  · by_cases hp : e = "prod"
    · subst hp
      simp [QueueService.make, truthyStr, ha, hs, hq, ENVIRONMENT_MAP,
        JsPropValue.truthy, JsPropValue.display]
    · simp [QueueService.make, truthyStr, ha, hs, he, hq, ENVIRONMENT_MAP,
        hk, hp, hc, hpr, hproto, JsPropValue.truthy, JsPropValue.display]

/-- Witness for C3's amended theorem: the `prod` environment at concrete
identifiers produces the production-account URL asserted by the
repository's own test. -/
theorem queueService_url_witness :
    QueueService.make (some "appName") (some "slice") (some "prod") (some "name")
      = .ok { url := "https://sqs.ap-southeast-2.amazonaws.com/966972755541/appName-slice-name" } := by
  have h := queueService_url "appName" "slice" "prod" "name"
    (by decide) (by decide) (by decide) (by decide) (by decide)
  simpa using h

/-- C4: for every message object lacking a (truthy) receipt token,
`deleteMessage` rejects with the local validation string, the transport
delete is never invoked, and the validation string is distinct in shape
from every wrapped transport error. -/
theorem deleteMessage_no_receipt (m : SqsData) (delT : Except String SqsData)
    (h : truthyStr m.ReceiptHandle = false) :
    deleteMessage (some m) delT
      = (.error (.str "message input did not contain a receipt handle"), false)
    ∧ ∀ e : String, RejectValue.str "message input did not contain a receipt handle"
        ≠ .str ("An error occurred: " ++ e) := by
  constructor
  · simp [deleteMessage, h]
  · intro e hcontra
    have hstr : "message input did not contain a receipt handle"
        = "An error occurred: " ++ e := by
      injection hcontra
    have hd := congrArg String.data hstr
    rw [String.data_append] at hd
    simp at hd

/-- Witness for C4: a message with no `ReceiptHandle` field, against a
transport that would succeed, still rejects locally without any transport
call. -/
theorem deleteMessage_no_receipt_witness :
    deleteMessage (some { Messages := none, ReceiptHandle := none }) (.ok { })
      = (.error (.str "message input did not contain a receipt handle"), false) :=
  (deleteMessage_no_receipt { Messages := none, ReceiptHandle := none }
    (.ok { }) (by decide)).1

/-- C5: `dequeue()` performs a receive with max 1 (the default), passes the
delete call exactly the object resolved by receive, unmodified, and on a
successful delete resolves with that received object; when the received
object carries no truthy receipt token, the composed delete fails the
local validation check without invoking the delete transport. -/
theorem dequeue_receive_then_delete
    (recvT : ReceiveParams → Except String SqsData) (delT : Except String SqsData)
    (data : SqsData) (hr : recvT (receiveParamsOf 1) = .ok data) :
    (dequeue recvT delT).2.receiveParams = receiveParamsOf 1
    ∧ (dequeue recvT delT).2.deleteArg = some (some data)
    ∧ (∀ d, truthyStr data.ReceiptHandle = true → delT = .ok d →
        (dequeue recvT delT).1 = .ok data)
    ∧ (truthyStr data.ReceiptHandle = false →
        (dequeue recvT delT).1
          = .error (.str "message input did not contain a receipt handle")
        ∧ (dequeue recvT delT).2.deleteTransportCalled = false) := by
  cases htok : truthyStr data.ReceiptHandle
  · refine ⟨?_, ?_, ?_, ?_⟩ <;>
      simp [dequeue, receiveMessage, deleteMessage, hr, htok]
  · cases delT with
    | error err =>
      refine ⟨?_, ?_, ?_, ?_⟩ <;>
        simp [dequeue, receiveMessage, deleteMessage, hr, htok]
    | ok d =>
      refine ⟨?_, ?_, ?_, ?_⟩ <;>
        simp [dequeue, receiveMessage, deleteMessage, hr, htok]

/-- Witness for C5: a receive resolving a message with a receipt handle,
followed by a succeeding delete transport, resolves `dequeue` with the
received object, which was also the exact delete argument. -/
theorem dequeue_receive_then_delete_witness :
    (dequeue (fun _ => .ok { Messages := none, ReceiptHandle := some "rh" }) (.ok { })).1
      = .ok { Messages := none, ReceiptHandle := some "rh" }
    ∧ (dequeue (fun _ => .ok { Messages := none, ReceiptHandle := some "rh" }) (.ok { })).2.deleteArg
      = some (some { Messages := none, ReceiptHandle := some "rh" }) := by
  have h := dequeue_receive_then_delete
    (fun _ => .ok { Messages := none, ReceiptHandle := some "rh" }) (.ok { })
    { Messages := none, ReceiptHandle := some "rh" } rfl
  exact ⟨h.2.2.1 { } (by decide) rfl, h.2.1⟩

/-- C6: when key generation resolves a key, a successful write makes
`putAttachment` resolve with exactly the key used in the write call; when
the write transport fails, `putAttachment` rejects with that same failure
value unchanged and no key is returned. -/
theorem putAttachment_key_and_error {α : Type} (stringify : α → String)
    (stream : List (String × Option JsErr)) (putT : PutData → Option JsErr)
    (pre : String) (att : α) (key : String)
    (hk : (getUniqueKey pre stream).1 = some (.ok key)) :
    (putT { Key := key, Body := stringify att } = none →
      putAttachment stringify stream putT pre att = some (.ok key))
    ∧ (∀ e, putT { Key := key, Body := stringify att } = some e →
      putAttachment stringify stream putT pre att = some (.error e)) := by
  constructor
  · intro hp
    simp [putAttachment, hk, putObjectPromise, hp]
  · intro e hp
    simp [putAttachment, hk, putObjectPromise, hp]

/-- Witness for C6: one `NotFound` probe yields the key, the write succeeds,
and `putAttachment` resolves with that key. -/
theorem putAttachment_key_and_error_witness :
    putAttachment id [("sfx", some { code := some "NotFound" })] (fun _ => none) "p" "a"
      = some (.ok ("p" ++ "sfx")) :=
  (putAttachment_key_and_error id [("sfx", some { code := some "NotFound" })]
    (fun _ => none) "p" "a" ("p" ++ "sfx") rfl).1 rfl

/-- C7: `startPolling` clamps the interval to a floor of 20 seconds:
`startPolling(5)` installs a 20000 ms period, `startPolling(30)` installs
30000 ms unclamped, and every installed period is at least 20000 ms. -/
theorem startPolling_interval_clamp :
    startPollingIntervalMs 5 = 20000 ∧ startPollingIntervalMs 30 = 30000
    ∧ ∀ s : Int, 20000 ≤ startPollingIntervalMs s := by
  refine ⟨by decide, by decide, fun s => ?_⟩
  have h := mul_le_mul_of_nonneg_right (le_max_right s 20) (by norm_num : (0 : Int) ≤ 1000)
  norm_num at h
  simpa [startPollingIntervalMs] using h

/-- C8: construction fails with the configuration error whenever any of the
four identifiers is empty, `null`, or `undefined` — for every combination
in which at least one is missing. -/
theorem queueService_make_missing_param (a s e q : Option String)
    (h : truthyStr a = false ∨ truthyStr s = false
      ∨ truthyStr e = false ∨ truthyStr q = false) :
    QueueService.make a s e q
      = .error "All parameters are mandatory, please provide an appName, slice, environment and queueName" := by
  rcases h with h | h | h | h <;> simp [QueueService.make, h]

/-- Witness for C8: the zero-argument construction (all four identifiers
`undefined`) fails with the configuration error. -/
theorem queueService_make_missing_param_witness :
    QueueService.make none none none none
      = .error "All parameters are mandatory, please provide an appName, slice, environment and queueName" :=
  queueService_make_missing_param none none none none (Or.inl rfl)

/-- C9 counterexample: the provider module never imports `QueueService`,
so `new QueueService()` throws a `ReferenceError` for the unbound
identifier before any constructor runs — `Provider` construction does not
fail with the queue client's mandatory-parameter configuration error, as
the claim's stated failure mechanism requires. -/
theorem provider_make_reference_error :
    Provider.make (some "bucket")
      ≠ .error (.error "All parameters are mandatory, please provide an appName, slice, environment and queueName") := by
  decide

/-- C9 amended: for every bucket name, `Provider` construction fails rather
than producing a usable queue client — but with the `ReferenceError` for
the unbound `QueueService` identifier (the provider module imports only
`StorageService`), thrown before the queue client's mandatory-parameter
validation is ever reached. -/
theorem provider_make_fails (bucketName : Option String) :
    Provider.make bucketName = .error (.referenceError "QueueService is not defined") :=
  rfl

/-- C10: calling `deleteMessage` with a `null`/`undefined` input still
rejects without the transport delete being invoked, but the rejection is
the `TypeError` raised by reading the receipt-handle field of `null`, not
the local validation message string. -/
theorem deleteMessage_null_input (delT : Except String SqsData) :
    deleteMessage none delT
      = (.error (.typeError "Cannot read properties of null (reading ReceiptHandle)"), false)
    ∧ ∀ s : String,
        RejectValue.typeError "Cannot read properties of null (reading ReceiptHandle)"
          ≠ .str s :=
  ⟨rfl, fun _ h => RejectValue.noConfusion h⟩

end SqsSdk
